import Mathlib

/-!
Verification of the splunk-cli asynchronous job lifecycle controller.

This file shallowly embeds the core of the splunk-cli Go program:
the Splunk REST client (URL construction, authentication selection,
search submission, job status polling, result pagination, cancellation)
and the `run` command control flow (poll loop, timeout handling, and the
interactive interrupt prompt with the cancel/detach choice).

Pure string and arithmetic manipulations of the Go source are translated
directly. Network interaction is modelled by passing the data the remote
server would deliver (poll snapshots, page contents) as explicit inputs,
and the interactive select loops are modelled as functions of the event
that wins each select. Go `int` values are modelled as `Int`; Go string
case folding is modelled with the ASCII folding of Lean (the strings the
code compares are ASCII).
-/

namespace SplunkCLI

/-- Connection configuration, from `Config` in the splunk package
(fields not used by the verified operations are omitted). -/
structure Config where
  host : String
  token : String
  user : String
  password : String
  app : String
  owner : String
deriving DecidableEq

/-- A diagnostic message attached to a job, from `SplunkMessage`. -/
structure SplunkMessage where
  type : String
  text : String
deriving DecidableEq

/-- The authentication applied to an outgoing request. `bearer` models
setting the Authorization header, `basicAuth` models `req.SetBasicAuth`,
and `noAuth` models a request that leaves both unset. -/
inductive AuthMethod where
  | bearer (token : String)
  | basicAuth (user password : String)
  | noAuth
deriving DecidableEq

/-- Embeds `setupAuth` from the client: a configured token sets the
Authorization header to the Bearer value, else basic auth is applied when
user and password are both non-empty, else neither is set. The header
value carried by `bearer` is the full header string. -/
def setupAuth (cfg : Config) : AuthMethod :=
  if cfg.token ≠ "" then AuthMethod.bearer ("Bearer " ++ cfg.token)
  else if cfg.user ≠ "" ∧ cfg.password ≠ "" then AuthMethod.basicAuth cfg.user cfg.password
  else AuthMethod.noAuth

/-- Embeds `promptForCredentials` from cmd/common.go. The interactive
terminal read is modelled by `entered`: `some s` means the operator typed
the line `s`, `none` means the terminal read failed. When credentials are
already present the config is returned unchanged without prompting. -/
def promptForCredentials (cfg : Config) (entered : Option String) : Except String Config :=
  if cfg.token ≠ "" ∨ (cfg.user ≠ "" ∧ cfg.password ≠ "") then Except.ok cfg
  else if cfg.user = "" then
    match entered with
    | none => Except.error "could not read token"
    | some s => Except.ok { cfg with token := s }
  else if cfg.password = "" then
    match entered with
    | none => Except.error "could not read password"
    | some s => Except.ok { cfg with password := s }
  else Except.ok cfg

/-- Embeds `createAPIURL` from the client: choose the namespace segments
from the app and owner configuration and join them onto the host. The
`url.JoinPath` call of Go is modelled as interposing single slashes,
which is its behaviour for a well-formed host without a trailing slash
and plain path segments. -/
def createAPIURL (cfg : Config) (pathSegments : List String) : String :=
  let finalSegments :=
    if cfg.app ≠ "" then
      "servicesNS" :: (if cfg.owner = "" then "nobody" else cfg.owner)
        :: cfg.app :: pathSegments
    else
      "services" :: pathSegments
  cfg.host ++ "/" ++ String.intercalate "/" finalSegments

/-- ASCII upper-casing of one character, the behaviour of the Go
`strings.ToUpper` on ASCII input. Defined over the character list so
that concrete instances evaluate inside the kernel. -/
def asciiToUpperChar (c : Char) : Char :=
  if 'a' ≤ c ∧ c ≤ 'z' then Char.ofNat (c.toNat - 32) else c

/-- ASCII upper-casing of a string, modelling `strings.ToUpper`. -/
def asciiToUpper (s : String) : String :=
  String.mk (s.data.map asciiToUpperChar)

/-- ASCII lower-casing of one character, the behaviour of the Go
`strings.ToLower` on ASCII input. -/
def asciiToLowerChar (c : Char) : Char :=
  if 'A' ≤ c ∧ c ≤ 'Z' then Char.ofNat (c.toNat + 32) else c

/-- ASCII lower-casing of a string, modelling `strings.ToLower`. -/
def asciiToLower (s : String) : String :=
  String.mk (s.data.map asciiToLowerChar)

/-- The whitespace characters relevant to trimming the modelled inputs,
as cut by the Go `strings.TrimSpace`. -/
def isSpaceChar (c : Char) : Bool :=
  c = ' ' ∨ c = '\t' ∨ c = '\n' ∨ c = '\r'

/-- Trims whitespace from both ends, modelling `strings.TrimSpace`. -/
def trimSpace (s : String) : String :=
  String.mk (((s.data.dropWhile isSpaceChar).reverse.dropWhile isSpaceChar).reverse)

/-- The form body submitted by `StartSearch` (the fields set on
`url.Values` before encoding). Absent optional fields model form keys
that are never set. -/
structure SearchForm where
  search : String
  earliest : Option String
  latest : Option String
  outputMode : String
deriving DecidableEq

/-- Embeds the query normalization inside `StartSearch`: a query whose
trimmed form does not start with a pipe gets the literal search verb
prepended; otherwise it is submitted unchanged. -/
def searchBody (spl : String) : String :=
  if !("|".data.isPrefixOf (trimSpace spl).data) then "search " ++ spl else spl

/-- Embeds the client-side part of `StartSearch`: the form it posts to
the jobs endpoint. The function performs no validation of the query, so
the only error-free-by-construction result is the submitted form. -/
def StartSearch (spl earliest latest : String) : Except String SearchForm :=
  Except.ok
    { search := searchBody spl
    , earliest := if earliest ≠ "" then some earliest else none
    , latest := if latest ≠ "" then some latest else none
    , outputMode := "json" }

/-- Embeds `getSplQuery` from cmd/common.go. Reading the file or stdin is
modelled by `fileContent`, the text that the read would deliver. -/
def getSplQuery (splFlag fileFlag fileContent : String) : Except String String :=
  if splFlag ≠ "" ∧ fileFlag ≠ "" then
    Except.error "--spl and --file flags cannot be used at the same time"
  else if splFlag ≠ "" then Except.ok splFlag
  else if fileFlag ≠ "" then Except.ok fileContent
  else Except.error "--spl or --file flag is required"

/-- Decides whether a message counts as an error for aggregation in
`WaitForJob`: its type, upper-cased, is FATAL or ERROR. -/
def isErrorSeverity (m : SplunkMessage) : Bool :=
  asciiToUpper m.type == "FATAL" || asciiToUpper m.type == "ERROR"

/-- Embeds the `strings.Builder` loop of `WaitForJob`: fold over the
messages, appending a bulleted line for each FATAL or ERROR message. -/
def aggregateErrors (messages : List SplunkMessage) : String :=
  messages.foldl
    (fun acc m => if isErrorSeverity m then acc ++ ("\n  - " ++ m.text) else acc) ""

/-- Embeds the body of `WaitForJob` once a poll reports done: a FAILED
dispatch state yields an error aggregating the FATAL and ERROR messages,
or a generic failure message when the aggregate is empty; any other
dispatch state is success. -/
def waitForJobDone (sid jobState : String) (messages : List SplunkMessage) :
    Except String Unit :=
  if jobState = "FAILED" then
    let errorMessages := aggregateErrors messages
    if 0 < errorMessages.length then
      Except.error ("search job " ++ sid ++ " failed with errors:" ++ errorMessages)
    else
      Except.error ("search job " ++ sid ++ " failed")
  else Except.ok ()

/-- One poll snapshot as decoded by `JobStatus` from the status entry. -/
structure PollStatus where
  isDone : Bool
  dispatchState : String
  messages : List SplunkMessage
  resultCount : Int
deriving DecidableEq

/-- The error values `WaitForJob` can return: the two context sentinels
(from `ctx.Err()`), a `JobStatus` failure, or the job-failed error built
by `waitForJobDone`. -/
inductive WaitError where
  | ctxCanceled
  | ctxDeadlineExceeded
  | statusFailed (msg : String)
  | jobFailed (msg : String)
deriving DecidableEq

/-- The Go error strings of the modelled error values; the two context
sentinels render to fixed duration-free texts. -/
def WaitError.message : WaitError → String
  | WaitError.ctxCanceled => "context canceled"
  | WaitError.ctxDeadlineExceeded => "context deadline exceeded"
  | WaitError.statusFailed m => m
  | WaitError.jobFailed m => m

/-- Equality of modelled fallible outcomes is decidable; this lets the
event and error types below derive decidable equality. -/
instance {ε α : Type} [DecidableEq ε] [DecidableEq α] : DecidableEq (Except ε α)
  | Except.error e, Except.error f =>
      if h : e = f then Decidable.isTrue (congrArg Except.error h)
      else Decidable.isFalse (fun hh => h (Except.error.inj hh))
  | Except.error _, Except.ok _ => Decidable.isFalse (fun hh => Except.noConfusion hh)
  | Except.ok _, Except.error _ => Decidable.isFalse (fun hh => Except.noConfusion hh)
  | Except.ok a, Except.ok b =>
      if h : a = b then Decidable.isTrue (congrArg Except.ok h)
      else Decidable.isFalse (fun hh => h (Except.ok.inj hh))

/-- One turn of the select inside the poll loop of `WaitForJob`: either
the context fires (`canceled` tells which sentinel `ctx.Err()` is), or
the ticker fires and the `JobStatus` call returns `status`. -/
inductive PollEvent where
  | ctxDone (canceled : Bool)
  | tick (status : Except String PollStatus)
deriving DecidableEq

/-- Embeds the poll loop of `WaitForJob` over the sequence of select
outcomes. `none` means the given events did not decide the loop (it
would keep polling). -/
def WaitForJob (sid : String) : List PollEvent → Option (Except WaitError Unit)
  | [] => none
  | PollEvent.ctxDone canceled :: _ =>
      some (Except.error
        (if canceled then WaitError.ctxCanceled else WaitError.ctxDeadlineExceeded))
  | PollEvent.tick (Except.error e) :: _ =>
      some (Except.error (WaitError.statusFailed e))
  | PollEvent.tick (Except.ok st) :: rest =>
      if st.isDone then
        match waitForJobDone sid st.dispatchState st.messages with
        | Except.ok () => some (Except.ok ())
        | Except.error e => some (Except.error (WaitError.jobFailed e))
      else WaitForJob sid rest

/-- The errors the `run` command can return after waiting, from
cmd/run.go. `timedOut` carries the configured overall timeout. -/
inductive CmdError where
  | waitFailed (e : WaitError)
  | timedOut (timeout : Int)
  | cancelFailed (msg : String)
  | fetchFailed (msg : String)
deriving DecidableEq

/-- Embeds the error translation of cmd/run.go after `WaitForJob`
returns: non-context errors propagate, deadline exhaustion becomes the
command timeout error carrying the configured duration, and context
cancellation falls through to the fetch step. -/
def runCmdWaitBranch (timeout : Int) (r : Except WaitError Unit) : Except CmdError Unit :=
  match r with
  | Except.error e =>
      if e ≠ WaitError.ctxCanceled ∧ e ≠ WaitError.ctxDeadlineExceeded then
        Except.error (CmdError.waitFailed e)
      else if e = WaitError.ctxDeadlineExceeded then
        Except.error (CmdError.timedOut timeout)
      else Except.ok ()
  | Except.ok () => Except.ok ()

/-- What the operator does at the interrupt prompt of cmd/run.go: either
a line arrives from `getChoiceFromTTY` (already trimmed of surrounding
whitespace, as that function does), or a second signal arrives first. -/
inductive Choice where
  | line (s : String)
  | secondSignal
deriving DecidableEq

/-- The event that wins the outer select of cmd/run.go: `WaitForJob`
finishing, or the first interrupt signal (followed by the prompt whose
resolution is `c`). -/
inductive FirstEvent where
  | waitDone (r : Except WaitError Unit)
  | interrupt (c : Choice)
deriving DecidableEq

/-- The remote control calls the `run` command may issue after waiting:
a cancel control request or a results fetch, each against a SID. -/
inductive ApiCall where
  | cancelSearch (sid : String)
  | fetchResults (sid : String)
deriving DecidableEq

/-- Embeds the tail of `CancelSearch`: HTTP 200 is success, anything
else is a cancel error. `cancelResult` stands for that outcome. -/
def cancelSearchOutcome (cancelResult : Except String Unit) : Except CmdError Unit :=
  match cancelResult with
  | Except.ok () => Except.ok ()
  | Except.error e => Except.error (CmdError.cancelFailed e)

/-- Embeds cmd/run.go from the outer select to the end: an interrupt
leads to the prompt, where a line lower-casing to d detaches (success,
no further calls) and anything else, or a second signal, cancels once;
without an interrupt the wait outcome is translated and, on the
fall-through paths, results are fetched. The first component records
the remote calls issued, in order. -/
def runCmdFromWait (sid : String) (timeout : Int) (ev : FirstEvent)
    (cancelResult : Except String Unit) (fetchResult : Except String String) :
    List ApiCall × Except CmdError Unit :=
  match ev with
  | FirstEvent.waitDone r =>
      match runCmdWaitBranch timeout r with
      | Except.error e => ([], Except.error e)
      | Except.ok () =>
          match fetchResult with
          | Except.ok _ => ([ApiCall.fetchResults sid], Except.ok ())
          | Except.error e => ([ApiCall.fetchResults sid], Except.error (CmdError.fetchFailed e))
  | FirstEvent.interrupt c =>
      match c with
      | Choice.line s =>
          if asciiToLower s = "d" then ([], Except.ok ())
          else ([ApiCall.cancelSearch sid], cancelSearchOutcome cancelResult)
      | Choice.secondSignal =>
          ([ApiCall.cancelSearch sid], cancelSearchOutcome cancelResult)

/-- Embeds step 2 of `Results`: the number of records to fetch is the
total when the limit is zero or a positive limit exceeds the total, and
the limit itself otherwise (including a negative limit, which the code
leaves untouched). -/
def fetchCountOf (limit total : Int) : Int :=
  if limit = 0 ∨ (0 < limit ∧ total < limit) then total else limit

/-- The page size ceiling, `const maxCount = 50000` in `Results`. -/
def maxCount : Int := 50000

/-- Embeds the pagination loop header of `Results`: the offset and count
query parameters of each page request, in the order the requests are
issued. The offset starts at `offset`, strides by `maxCount` while below
`fetchCount`, and the final count is clipped to `fetchCount - offset`. -/
def resultsPageList (fetchCount offset : Int) : List (Int × Int) :=
  if offset < fetchCount then
    (offset, if offset + maxCount > fetchCount then fetchCount - offset else maxCount)
      :: resultsPageList fetchCount (offset + maxCount)
  else []
termination_by (fetchCount - offset).toNat
decreasing_by simp_wf; simp only [maxCount]; omega

/-- The server model for one results page request: the records of the
job, in server order, from `offset`, at most `count` of them. -/
def fetchPage {α : Type} (recs : List α) (offset count : Int) : List α :=
  (recs.drop offset.toNat).take count.toNat

/-- The observable behaviour of one `Results` call: the job total it
read back, the fetch count it computed, the page requests it issued and
the records of the returned payload, in order. -/
structure ResultsRun (α : Type) where
  total : Int
  fetchCount : Int
  requests : List (Int × Int)
  records : List α
deriving DecidableEq

/-- Embeds `Results (sid, limit)` run against a server whose job holds
`recs` in server order and reports their number as the total: read the
total, compute the fetch count, issue the page requests of
`resultsPageList` and concatenate the fetched pages. -/
def Results {α : Type} (recs : List α) (limit : Int) : ResultsRun α :=
  let total : Int := recs.length
  let fetchCount := fetchCountOf limit total
  let requests := resultsPageList fetchCount 0
  { total := total
  , fetchCount := fetchCount
  , requests := requests
  , records := (requests.map (fun p => fetchPage recs p.1 p.2)).flatten }

/-- Specification-side rendering of a list of messages as consecutive
bulleted lines, used to characterise the fold in `aggregateErrors`. -/
def bulletsOf : List SplunkMessage → String
  | [] => ""
  | m :: rest => ("\n  - " ++ m.text) ++ bulletsOf rest

/-- Closed form of the pagination loop: from offset `o`, the requests
are at offsets `o, o + 50000, o + 100000, ...` strictly below the fetch
count, each with count 50000 except the final one, clipped. Stated with
a fuel bound to drive the induction. -/
theorem resultsPageList_closedForm (n : Nat) :
    ∀ (f o : Int), (f - o).toNat ≤ n → 0 ≤ o →
    resultsPageList f o =
      (List.range (((f - o).toNat + 49999) / 50000)).map
        (fun i : Nat => (o + 50000 * (i : Int), min 50000 (f - o - 50000 * (i : Int)))) := by
  induction n with
  | zero =>
      intro f o hle _
      rw [resultsPageList]
      have h1 : ¬ o < f := by omega
      have h2 : ((f - o).toNat + 49999) / 50000 = 0 := by omega
      rw [if_neg h1, h2]
      simp
  | succ n ih =>
      intro f o hle ho
      rw [resultsPageList]
      by_cases h : o < f
      · rw [if_pos h]
        rw [ih f (o + maxCount) (by simp only [maxCount]; omega)
            (by simp only [maxCount]; omega)]
        have hk : ((f - o).toNat + 49999) / 50000
            = ((f - (o + maxCount)).toNat + 49999) / 50000 + 1 := by
          simp only [maxCount]; omega
        rw [hk, List.range_succ_eq_map, List.map_cons, List.map_map]
        congr 1
        · simp only [maxCount, Prod.mk.injEq, Nat.cast_zero, mul_zero, add_zero, sub_zero,
            true_and]
          omega
        · refine List.map_congr_left ?_
          intro i _
          simp only [Function.comp, maxCount, Prod.mk.injEq]
          constructor
          · push_cast
            ring
          · congr 1
            push_cast
            ring
      · rw [if_neg h]
        have h2 : ((f - o).toNat + 49999) / 50000 = 0 := by omega
        rw [h2]
        simp

/-- Concatenating the fetched pages of the pagination loop yields the
records of the requested range in server order, with no duplication and
no loss: exactly the records from position `o` up to the fetch count. -/
theorem resultsPageList_flatten (n : Nat) :
    ∀ {α : Type} (recs : List α) (f o : Int), (f - o).toNat ≤ n → 0 ≤ o →
    ((resultsPageList f o).map (fun p => fetchPage recs p.1 p.2)).flatten
      = (recs.drop o.toNat).take (f - o).toNat := by
  induction n with
  | zero =>
      intro α recs f o hle ho
      rw [resultsPageList]
      have h1 : ¬ o < f := by omega
      have h2 : (f - o).toNat = 0 := by omega
      rw [if_neg h1, h2]
      simp
  | succ n ih =>
      intro α recs f o hle ho
      rw [resultsPageList]
      by_cases h : o < f
      · rw [if_pos h, List.map_cons, List.flatten_cons]
        rw [ih recs f (o + maxCount) (by simp only [maxCount]; omega)
            (by simp only [maxCount]; omega)]
        simp only [fetchPage, maxCount]
        by_cases hclip : f < o + 50000
        · rw [if_pos (by omega : o + (50000:Int) > f)]
          have h0 : (f - (o + 50000)).toNat = 0 := by omega
          rw [h0]
          simp
        · rw [if_neg (by omega : ¬ o + (50000:Int) > f)]
          have h50 : ((50000:Int)).toNat = 50000 := rfl
          rw [h50]
          have hof : (o + (50000:Int)).toNat = o.toNat + 50000 := by omega
          have hsub : f - (o + 50000) = f - o - 50000 := by ring
          rw [hof, hsub, ← List.drop_drop]
          have htake : (f - o).toNat = 50000 + (f - o - 50000).toNat := by omega
          rw [htake, List.take_add]
      · rw [if_neg h]
        have h2 : (f - o).toNat = 0 := by omega
        rw [h2]
        simp

/-- The page requests issued from offset 0, in closed form. -/
theorem resultsPageList_requests (f : Int) :
    resultsPageList f 0 =
      (List.range ((f.toNat + 49999) / 50000)).map
        (fun i : Nat => ((50000 * (i : Int), min 50000 (f - 50000 * (i : Int))) : Int × Int)) := by
  have h := resultsPageList_closedForm (f - 0).toNat f 0 le_rfl le_rfl
  simpa using h

/-- The records a `Results` call returns are exactly the first
fetch-count records of the job, in server order. -/
theorem Results_records_take {α : Type} (recs : List α) (limit : Int) :
    (Results recs limit).records
      = recs.take ((fetchCountOf limit (recs.length : Int)).toNat) := by
  have h := resultsPageList_flatten (fetchCountOf limit (recs.length : Int) - 0).toNat recs
    (fetchCountOf limit (recs.length : Int)) 0 le_rfl le_rfl
  simpa [Results] using h

/-- C2 (amended): for every call to the paginated Results with limit and
the server-reported total, the number of records retrieved equals limit
when limit is positive and at most total, in which case the records are
the first limit records in server order; and it equals total — all the
records, in server order, for any total including 0 — when limit is zero
or exceeds total. (As stated, the claim fails for a negative limit,
where zero records are retrieved; see the counterexample.) -/
theorem Results_limit_spec {α : Type} (recs : List α) (limit : Int) :
    (0 < limit ∧ limit ≤ (recs.length : Int) →
        (Results recs limit).records = recs.take limit.toNat ∧
        ((Results recs limit).records.length : Int) = limit) ∧
    ((limit = 0 ∨ (recs.length : Int) < limit) →
        (Results recs limit).records = recs ∧
        (Results recs limit).records.length = recs.length) := by
  constructor
  · rintro ⟨h1, h2⟩
    have hfc : fetchCountOf limit (recs.length : Int) = limit := by
      unfold fetchCountOf
      rw [if_neg (by omega)]
    have hrec := Results_records_take recs limit
    rw [hfc] at hrec
    refine ⟨hrec, ?_⟩
    rw [hrec, List.length_take]
    have hle : limit.toNat ≤ recs.length := by omega
    rw [min_eq_left hle]
    omega
  · intro h
    have hfc : fetchCountOf limit (recs.length : Int) = (recs.length : Int) := by
      unfold fetchCountOf
      rw [if_pos (by omega)]
    have hrec := Results_records_take recs limit
    rw [hfc] at hrec
    have hcast : ((recs.length : Int)).toNat = recs.length := by omega
    rw [hcast, List.take_length] at hrec
    exact ⟨hrec, by rw [hrec]⟩

/-- Witness for C2: with three records and limit 2, exactly the first 2
records are returned. -/
theorem Results_limit_spec_witness :
    ((0 : Int) < 2 ∧ (2 : Int) ≤ (([10, 20, 30] : List Nat).length : Int)) ∧
    ((Results ([10, 20, 30] : List Nat) 2).records
        = ([10, 20, 30] : List Nat).take ((2 : Int).toNat) ∧
      ((Results ([10, 20, 30] : List Nat) 2).records.length : Int) = 2) :=
  ⟨by decide, (Results_limit_spec ([10, 20, 30] : List Nat) 2).1 (by decide)⟩

/-- Counterexample for C2 as stated: at limit -1 with total 1 the claim
requires the retrieved count to equal the total (the limit is not
positive, so the otherwise branch applies), yet the code retrieves zero
records. -/
theorem Results_limit_counterexample :
    (Results [(0 : Nat)] (-1)).total = 1 ∧ (Results [(0 : Nat)] (-1)).records.length = 0 := by
  constructor
  · simp [Results]
  · have h := Results_records_take [(0 : Nat)] (-1)
    have hfc : fetchCountOf (-1) (([(0 : Nat)].length : Nat) : Int) = -1 := by
      unfold fetchCountOf
      norm_num
    rw [hfc] at h
    rw [h]
    rfl

/-- C3: the paginated Results issues page requests sequentially at
offsets 0, 50000, 100000, ... strictly below the fetch count, each with
count 50000 except the final page, clipped to the remainder; for total
120000 and limit 0 exactly 3 requests are issued, at offsets 0, 50000,
100000 with counts 50000, 50000, 20000, and the fetched pages
concatenate in offset order to the job records without duplication or
loss. -/
theorem Results_pagination :
    ((Results (List.range 120000) 0).fetchCount = 120000 ∧
     (Results (List.range 120000) 0).requests = [(0, 50000), (50000, 50000), (100000, 20000)] ∧
     (Results (List.range 120000) 0).records = List.range 120000) ∧
    (∀ f : Int, resultsPageList f 0 =
       (List.range ((f.toNat + 49999) / 50000)).map
         (fun i : Nat => ((50000 * (i : Int), min 50000 (f - 50000 * (i : Int))) : Int × Int))) ∧
    (∀ (recs : List Nat) (f : Int),
       ((resultsPageList f 0).map (fun p => fetchPage recs p.1 p.2)).flatten
         = recs.take f.toNat) := by
  have hfc : fetchCountOf 0 (120000 : Int) = 120000 := by
    unfold fetchCountOf
    rw [if_pos (Or.inl rfl)]
  refine ⟨⟨?_, ?_, ?_⟩, ?_, ?_⟩
  · simp [Results, List.length_range, hfc]
  · have hq : (Results (List.range 120000) 0).requests = resultsPageList 120000 0 := by
      simp [Results, List.length_range, hfc]
    rw [hq, resultsPageList_requests]
    decide
  · have h := Results_records_take (List.range 120000) 0
    simp only [List.length_range, Nat.cast_ofNat] at h
    rw [hfc] at h
    have hlen : ((120000 : Int)).toNat = (List.range 120000).length := by simp
    rw [hlen, List.take_length] at h
    exact h
  · intro f
    exact resultsPageList_requests f
  · intro recs f
    have h := resultsPageList_flatten (f - 0).toNat recs f 0 le_rfl le_rfl
    simpa using h

/-- C10: a negative limit is kept as the fetch count, which therefore
stays negative, so no page request is issued and the returned payload
holds zero records. -/
theorem Results_negative_limit {α : Type} (recs : List α) (limit : Int) (h : limit < 0) :
    (Results recs limit).fetchCount = limit ∧ (Results recs limit).fetchCount < 0 ∧
    (Results recs limit).requests = [] ∧ (Results recs limit).records = [] := by
  have hfc : fetchCountOf limit (recs.length : Int) = limit := by
    unfold fetchCountOf
    rw [if_neg (by omega)]
  have hreq : resultsPageList limit 0 = [] := by
    rw [resultsPageList]
    rw [if_neg (by omega)]
  have h1 : (Results recs limit).fetchCount = limit := by simp [Results, hfc]
  have h2 : (Results recs limit).requests = [] := by simp [Results, hfc, hreq]
  have h3 : (Results recs limit).records = [] := by simp [Results, hfc, hreq]
  exact ⟨h1, by rw [h1]; exact h, h2, h3⟩

/-- Witness for C10 at limit -3 against a job with two records. -/
theorem Results_negative_limit_witness :
    ((-3 : Int) < 0) ∧
    ((Results [(0 : Nat), 1] (-3)).fetchCount = -3 ∧
     (Results [(0 : Nat), 1] (-3)).fetchCount < 0 ∧
     (Results [(0 : Nat), 1] (-3)).requests = [] ∧
     (Results [(0 : Nat), 1] (-3)).records = []) :=
  ⟨by decide, Results_negative_limit [(0 : Nat), 1] (-3) (by decide)⟩

/-- The message-aggregation fold of `WaitForJob`, with an arbitrary
accumulator, appends the bulleted rendering of the qualifying
messages. -/
theorem foldl_aggregate (msgs : List SplunkMessage) :
    ∀ acc : String,
      msgs.foldl (fun acc m => if isErrorSeverity m then acc ++ ("\n  - " ++ m.text) else acc) acc
        = acc ++ bulletsOf (msgs.filter fun m => isErrorSeverity m) := by
  induction msgs with
  | nil =>
      intro acc
      simp [bulletsOf]
  | cons m rest ih =>
      intro acc
      cases h : isErrorSeverity m with
      | true =>
          simp only [List.foldl_cons, List.filter_cons, h, if_true, if_pos]
          rw [ih]
          simp [bulletsOf, String.append_assoc]
      | false =>
          simp only [List.foldl_cons, List.filter_cons, h, if_false]
          rw [ih]
          simp

/-- The aggregate error text is the bulleted rendering of exactly the
FATAL and ERROR messages, in their original order. -/
theorem aggregateErrors_eq (msgs : List SplunkMessage) :
    aggregateErrors msgs = bulletsOf (msgs.filter fun m => isErrorSeverity m) := by
  unfold aggregateErrors
  rw [foldl_aggregate]
  simp

/-- Bulleted rendering distributes over list concatenation. -/
theorem bulletsOf_append (l1 l2 : List SplunkMessage) :
    bulletsOf (l1 ++ l2) = bulletsOf l1 ++ bulletsOf l2 := by
  induction l1 with
  | nil => simp [bulletsOf]
  | cons m rest ih => simp [bulletsOf, ih, String.append_assoc]

/-- C4: on a done poll with dispatch state FAILED, the error carries the
text of every message whose severity upper-cases to FATAL or ERROR, each
rendered as a bulleted line inside the message, and is the generic
failure message when no message qualifies; any other dispatch state is
silent success. -/
theorem WaitForJob_failed_aggregation (sid dispatchState : String)
    (messages : List SplunkMessage) :
    (dispatchState ≠ "FAILED" → waitForJobDone sid dispatchState messages = Except.ok ()) ∧
    (dispatchState = "FAILED" →
      ((messages.filter fun m => isErrorSeverity m) = [] →
         waitForJobDone sid dispatchState messages
           = Except.error ("search job " ++ sid ++ " failed")) ∧
      (∀ m ∈ messages, (asciiToUpper m.type = "FATAL" ∨ asciiToUpper m.type = "ERROR") →
         ∃ p q, waitForJobDone sid dispatchState messages
           = Except.error (p ++ ("\n  - " ++ m.text) ++ q))) := by
  constructor
  · intro h
    simp only [waitForJobDone]
    rw [if_neg h]
  · intro h
    subst h
    constructor
    · intro hfilter
      have hagg : aggregateErrors messages = "" := by
        rw [aggregateErrors_eq, hfilter]
        rfl
      simp only [waitForJobDone, hagg]
      norm_num
    · intro m hm hsev
      have hsevb : isErrorSeverity m = true := by
        unfold isErrorSeverity
        rcases hsev with h | h <;> simp [h]
      have hmem : m ∈ messages.filter fun m => isErrorSeverity m :=
        List.mem_filter.mpr ⟨hm, hsevb⟩
      obtain ⟨l1, l2, hsplit⟩ := List.append_of_mem hmem
      have hagg : aggregateErrors messages
          = bulletsOf l1 ++ (("\n  - " ++ m.text) ++ bulletsOf l2) := by
        rw [aggregateErrors_eq, hsplit, bulletsOf_append]
        rfl
      have h5 : ("\n  - " : String).length = 5 := rfl
      have hpos : 0 < (aggregateErrors messages).length := by
        rw [hagg]
        simp only [String.length_append]
        omega
      refine ⟨"search job " ++ sid ++ " failed with errors:" ++ bulletsOf l1, bulletsOf l2, ?_⟩
      simp only [waitForJobDone, if_pos rfl]
      rw [if_pos hpos, hagg]
      simp [String.append_assoc]

/-- Witness for C4: a FAILED job with mixed severities, checked on the
lower-cased error message. -/
theorem WaitForJob_failed_aggregation_witness :
    (("FAILED" : String) = "FAILED" ∧
      (⟨"error", "bad1"⟩ : SplunkMessage) ∈
        ([⟨"DEBUG", "skip"⟩, ⟨"error", "bad1"⟩, ⟨"Fatal", "bad2"⟩] : List SplunkMessage) ∧
      (asciiToUpper "error" = "FATAL" ∨ asciiToUpper "error" = "ERROR")) ∧
    (∃ p q, waitForJobDone "12345.1" "FAILED"
        ([⟨"DEBUG", "skip"⟩, ⟨"error", "bad1"⟩, ⟨"Fatal", "bad2"⟩] : List SplunkMessage)
        = Except.error (p ++ ("\n  - " ++ "bad1") ++ q)) :=
  ⟨⟨rfl, by decide, by decide⟩,
    ((WaitForJob_failed_aggregation "12345.1" "FAILED"
        ([⟨"DEBUG", "skip"⟩, ⟨"error", "bad1"⟩, ⟨"Fatal", "bad2"⟩] : List SplunkMessage)).2
      rfl).2 ⟨"error", "bad1"⟩ (by decide) (by decide)⟩

/-- C1: after a first interrupt while polling, an operator line whose
lower-casing is d detaches — the run returns success having issued no
cancel and no results fetch; any other line, or a second signal before
the line, issues the cancel control request exactly once, against the
SID of the job. -/
theorem run_interrupt_choice (sid : String) (timeout : Int) (c : Choice)
    (cancelResult : Except String Unit) (fetchResult : Except String String) :
    (∀ s, c = Choice.line s → asciiToLower s = "d" →
       (runCmdFromWait sid timeout (FirstEvent.interrupt c) cancelResult fetchResult).1 = [] ∧
       (runCmdFromWait sid timeout (FirstEvent.interrupt c) cancelResult fetchResult).2
         = Except.ok ()) ∧
    (∀ s, c = Choice.line s → ¬ asciiToLower s = "d" →
       (runCmdFromWait sid timeout (FirstEvent.interrupt c) cancelResult fetchResult).1
         = [ApiCall.cancelSearch sid] ∧
       (runCmdFromWait sid timeout (FirstEvent.interrupt c) cancelResult fetchResult).1.count
         (ApiCall.cancelSearch sid) = 1) ∧
    (c = Choice.secondSignal →
       (runCmdFromWait sid timeout (FirstEvent.interrupt c) cancelResult fetchResult).1
         = [ApiCall.cancelSearch sid] ∧
       (runCmdFromWait sid timeout (FirstEvent.interrupt c) cancelResult fetchResult).1.count
         (ApiCall.cancelSearch sid) = 1) := by
  refine ⟨?_, ?_, ?_⟩
  · intro s hc hd
    subst hc
    simp [runCmdFromWait, hd]
  · intro s hc hd
    subst hc
    simp [runCmdFromWait, hd]
  · intro hc
    subst hc
    simp [runCmdFromWait]

/-- Witness for C1: the upper-case line D detaches with success and no
remote calls. -/
theorem run_interrupt_choice_witness :
    (Choice.line "D" = Choice.line "D" ∧ asciiToLower "D" = "d") ∧
    ((runCmdFromWait "12345.1" 600 (FirstEvent.interrupt (Choice.line "D"))
        (Except.ok ()) (Except.ok "x")).1 = [] ∧
     (runCmdFromWait "12345.1" 600 (FirstEvent.interrupt (Choice.line "D"))
        (Except.ok ()) (Except.ok "x")).2 = Except.ok ()) :=
  ⟨⟨rfl, by decide⟩,
    (run_interrupt_choice "12345.1" 600 (Choice.line "D") (Except.ok ()) (Except.ok "x")).1
      "D" rfl (by decide)⟩

/-- The poll loop returns the deadline sentinel once the context fires
with the deadline cause, after any number of not-done polls. -/
theorem WaitForJob_deadline_aux (pre : List PollEvent) :
    ∀ (rest : List PollEvent) (sid : String),
    (∀ ev ∈ pre, ∃ st, ev = PollEvent.tick (Except.ok st) ∧ st.isDone = false) →
    WaitForJob sid (pre ++ PollEvent.ctxDone false :: rest)
      = some (Except.error WaitError.ctxDeadlineExceeded) := by
  induction pre with
  | nil =>
      intro rest sid _
      simp [WaitForJob]
  | cons ev pre ih =>
      intro rest sid hpre
      obtain ⟨st, hev, hdone⟩ := hpre ev (by simp)
      subst hev
      rw [List.cons_append]
      simp only [WaitForJob, hdone]
      simp only [Bool.false_eq_true, if_false]
      exact ih rest sid (fun ev hev => hpre ev (List.mem_cons_of_mem _ hev))

/-- C5 (amended): when the deadline elapses before a poll reports done,
`WaitForJob` returns context.DeadlineExceeded — distinct from
cancellation and from every status or job error — and the run command
then reports the timeout error wrapping the configured duration. (As
stated, the claim attributes the duration-wrapping to `WaitForJob`
itself, which only returns the fixed sentinel; see the
counterexample.) -/
theorem WaitForJob_deadline (pre rest : List PollEvent) (sid : String) (timeout : Int)
    (hpre : ∀ ev ∈ pre, ∃ st, ev = PollEvent.tick (Except.ok st) ∧ st.isDone = false) :
    WaitForJob sid (pre ++ PollEvent.ctxDone false :: rest)
      = some (Except.error WaitError.ctxDeadlineExceeded) ∧
    WaitError.ctxDeadlineExceeded ≠ WaitError.ctxCanceled ∧
    (∀ s, WaitError.ctxDeadlineExceeded ≠ WaitError.statusFailed s ∧
          WaitError.ctxDeadlineExceeded ≠ WaitError.jobFailed s) ∧
    runCmdWaitBranch timeout (Except.error WaitError.ctxDeadlineExceeded)
      = Except.error (CmdError.timedOut timeout) := by
  refine ⟨WaitForJob_deadline_aux pre rest sid hpre, by decide, ?_, rfl⟩
  intro s
  exact ⟨fun h => WaitError.noConfusion h, fun h => WaitError.noConfusion h⟩

/-- Witness for C5: the deadline firing immediately, with a 600-unit
configured timeout. -/
theorem WaitForJob_deadline_witness :
    (∀ ev ∈ ([] : List PollEvent), ∃ st, ev = PollEvent.tick (Except.ok st) ∧ st.isDone = false) ∧
    (WaitForJob "12345.1" ([] ++ PollEvent.ctxDone false :: [])
        = some (Except.error WaitError.ctxDeadlineExceeded) ∧
     WaitError.ctxDeadlineExceeded ≠ WaitError.ctxCanceled ∧
     (∀ s, WaitError.ctxDeadlineExceeded ≠ WaitError.statusFailed s ∧
           WaitError.ctxDeadlineExceeded ≠ WaitError.jobFailed s) ∧
     runCmdWaitBranch 600 (Except.error WaitError.ctxDeadlineExceeded)
        = Except.error (CmdError.timedOut 600)) :=
  ⟨by simp, WaitForJob_deadline [] [] "12345.1" 600 (by simp)⟩

/-- Counterexample for C5 as stated: on a concrete deadline run the
value `WaitForJob` returns is the sentinel whose message is the fixed
duration-free text, and it is the same value whatever timeout is
configured — only the run command layer attaches the duration (shown
here for 600 and 1200). So the error returned by `WaitForJob` does not
wrap the configured duration. -/
theorem WaitForJob_deadline_counterexample :
    WaitForJob "12345.1"
        [PollEvent.tick (Except.ok ⟨false, "RUNNING", [], 0⟩), PollEvent.ctxDone false]
      = some (Except.error WaitError.ctxDeadlineExceeded) ∧
    WaitError.ctxDeadlineExceeded.message = "context deadline exceeded" ∧
    runCmdWaitBranch 600 (Except.error WaitError.ctxDeadlineExceeded)
      = Except.error (CmdError.timedOut 600) ∧
    runCmdWaitBranch 1200 (Except.error WaitError.ctxDeadlineExceeded)
      = Except.error (CmdError.timedOut 1200) :=
  ⟨rfl, rfl, rfl, rfl⟩

/-- C6: the submitted search body is the literal search verb prepended
to the query when its trimmed form does not start with a pipe, and the
query unchanged when it does. -/
theorem StartSearch_normalization (spl earliest latest : String) :
    (("|".data.isPrefixOf (trimSpace spl).data) = false →
       ∃ form, StartSearch spl earliest latest = Except.ok form ∧
         form.search = "search " ++ spl) ∧
    (("|".data.isPrefixOf (trimSpace spl).data) = true →
       ∃ form, StartSearch spl earliest latest = Except.ok form ∧ form.search = spl) := by
  constructor
  · intro h
    exact ⟨_, rfl, by simp [searchBody, h]⟩
  · intro h
    exact ⟨_, rfl, by simp [searchBody, h]⟩

/-- Witness for C6: one plain query and one generator pipeline. -/
theorem StartSearch_normalization_witness :
    (("|".data.isPrefixOf (trimSpace "index=main").data) = false ∧
      ∃ form, StartSearch "index=main" "" "" = Except.ok form ∧
        form.search = "search " ++ "index=main") ∧
    (("|".data.isPrefixOf (trimSpace "| makeresults").data) = true ∧
      ∃ form, StartSearch "| makeresults" "" "" = Except.ok form ∧
        form.search = "| makeresults") :=
  ⟨⟨by decide, (StartSearch_normalization "index=main" "" "").1 (by decide)⟩,
   ⟨by decide, (StartSearch_normalization "| makeresults" "" "").2 (by decide)⟩⟩

/-- C7 (amended): a configured token always wins and sets the Bearer
header; with no token, basic auth applies exactly when user and password
are both non-empty; and with no credentials at all the CLI does not fail
fast — it interactively prompts and stores the entered token, erroring
only when the prompt read itself fails, so an empty entry leads to a
request with neither header set. -/
theorem setupAuth_selection (cfg : Config) (entered : String) :
    (cfg.token ≠ "" → setupAuth cfg = AuthMethod.bearer ("Bearer " ++ cfg.token)) ∧
    (cfg.token = "" → cfg.user ≠ "" → cfg.password ≠ "" →
       setupAuth cfg = AuthMethod.basicAuth cfg.user cfg.password) ∧
    (cfg.token = "" → (cfg.user = "" ∨ cfg.password = "") →
       setupAuth cfg = AuthMethod.noAuth) ∧
    (cfg.token = "" → cfg.user = "" →
       promptForCredentials cfg (some entered) = Except.ok { cfg with token := entered } ∧
       promptForCredentials cfg none = Except.error "could not read token") := by
  refine ⟨?_, ?_, ?_, ?_⟩
  · intro h
    simp [setupAuth, h]
  · intro h1 h2 h3
    simp [setupAuth, h1, h2, h3]
  · intro h1 h2
    unfold setupAuth
    rw [if_neg (by simp [h1]), if_neg (by tauto)]
  · intro h1 h2
    constructor
    · unfold promptForCredentials
      rw [if_neg (by simp [h1, h2]), if_pos h2]
    · unfold promptForCredentials
      rw [if_neg (by simp [h1, h2]), if_pos h2]

/-- Witness for C7: a token-bearing config and an all-empty config that
gets prompted. -/
theorem setupAuth_selection_witness :
    (("tok" : String) ≠ "" ∧
      setupAuth ⟨"https://h", "tok", "", "", "", ""⟩
        = AuthMethod.bearer ("Bearer " ++ "tok")) ∧
    (("" : String) = "" ∧ ("" : String) = "" ∧
      promptForCredentials ⟨"https://h", "", "", "", "", ""⟩ (some "t2")
          = Except.ok ⟨"https://h", "t2", "", "", "", ""⟩ ∧
      promptForCredentials ⟨"https://h", "", "", "", "", ""⟩ none
          = Except.error "could not read token") :=
  ⟨⟨by decide, (setupAuth_selection ⟨"https://h", "tok", "", "", "", ""⟩ "x").1 (by decide)⟩,
   ⟨rfl, rfl, (setupAuth_selection ⟨"https://h", "", "", "", "", ""⟩ "t2").2.2.2 rfl rfl⟩⟩

/-- Counterexample for C7 as stated: with token, user and password all
empty, the credential prompt succeeds on an empty entry and the
resulting request carries no authentication — the system does not fail
fast before a network call requiring auth. -/
theorem promptForCredentials_no_failfast :
    promptForCredentials ⟨"", "", "", "", "", ""⟩ (some "")
        = Except.ok ⟨"", "", "", "", "", ""⟩ ∧
    setupAuth ⟨"", "", "", "", "", ""⟩ = AuthMethod.noAuth :=
  ⟨rfl, rfl⟩

/-- C8 (amended): the core `StartSearch` performs no validation: the
empty query is submitted as the bare search verb; emptiness is rejected
only in the CLI layer, by `getSplQuery`, when neither the query flag nor
the file flag is given. -/
theorem StartSearch_empty_query (earliest latest fileContent : String) :
    (∃ form, StartSearch "" earliest latest = Except.ok form ∧ form.search = "search ") ∧
    getSplQuery "" "" fileContent = Except.error "--spl or --file flag is required" := by
  refine ⟨⟨_, rfl, ?_⟩, rfl⟩
  show searchBody "" = "search "
  decide

/-- Counterexample for C8 as stated: on the empty query the core
`StartSearch` does not return an error — it submits the form whose
search body is the bare search verb. -/
theorem StartSearch_empty_query_counterexample :
    StartSearch "" "" "" = Except.ok ⟨"search ", none, none, "json"⟩ := by
  rfl

/-- C9: without an app namespace the API path is host/services/segments;
with an app it is host/servicesNS/owner/app/segments, the owner falling
back to the literal nobody when unset. -/
theorem createAPIURL_namespace (cfg : Config) (pathSegments : List String) :
    (cfg.app = "" →
      createAPIURL cfg pathSegments
        = cfg.host ++ "/" ++ String.intercalate "/" ("services" :: pathSegments)) ∧
    (cfg.app ≠ "" → cfg.owner = "" →
      createAPIURL cfg pathSegments
        = cfg.host ++ "/" ++ String.intercalate "/"
            ("servicesNS" :: "nobody" :: cfg.app :: pathSegments)) ∧
    (cfg.app ≠ "" → cfg.owner ≠ "" →
      createAPIURL cfg pathSegments
        = cfg.host ++ "/" ++ String.intercalate "/"
            ("servicesNS" :: cfg.owner :: cfg.app :: pathSegments)) := by
  refine ⟨?_, ?_, ?_⟩
  · intro h
    simp [createAPIURL, h]
  · intro h1 h2
    simp [createAPIURL, h1, h2]
  · intro h1 h2
    simp [createAPIURL, h1, h2]

/-- Witness for C9: the jobs endpoint with and without an app namespace,
the owner defaulting to nobody. -/
theorem createAPIURL_namespace_witness :
    (("search" : String) ≠ "" ∧ ("" : String) = "" ∧
      createAPIURL ⟨"https://splunk.example.com:8089", "", "", "", "search", ""⟩
          ["search", "jobs"]
        = "https://splunk.example.com:8089" ++ "/" ++ String.intercalate "/"
            ("servicesNS" :: "nobody" :: "search" :: ["search", "jobs"])) ∧
    (("" : String) = "" ∧
      createAPIURL ⟨"https://splunk.example.com:8089", "", "", "", "", ""⟩ ["search", "jobs"]
        = "https://splunk.example.com:8089" ++ "/" ++ String.intercalate "/"
            ("services" :: ["search", "jobs"])) :=
  ⟨⟨by decide, rfl,
      (createAPIURL_namespace ⟨"https://splunk.example.com:8089", "", "", "", "search", ""⟩
        ["search", "jobs"]).2.1 (by decide) rfl⟩,
   ⟨rfl,
      (createAPIURL_namespace ⟨"https://splunk.example.com:8089", "", "", "", "", ""⟩
        ["search", "jobs"]).1 rfl⟩⟩

end SplunkCLI
